import Mathlib

/-!
Shallow embedding of the task-conditioned environments and the Sampler of
`pytorch-maml-rl` (files `maml_rl/envs/bandit.py`,
`maml_rl/envs/mujoco/half_cheetah.py`, `maml_rl/samplers/sampler.py`).

Numeric values are modelled as rationals; the environment-owned numpy
random source is modelled as an abstract stream of uniform draws in
`[0, 1)` together with a cursor.
-/

/-- Abstract model of a numpy `RandomState`: an infinite stream of
i.i.d. Uniform[0,1) draws and a cursor into it.  Corresponds to
`self.np_random` in the Python environments. -/
structure Rng where
  stream : ℕ → ℚ
  pos : ℕ
  bounded : ∀ n, 0 ≤ stream n ∧ stream n < 1

/-- One Uniform[0,1) draw, advancing the cursor. -/
def Rng.uniform01 (r : Rng) : ℚ × Rng :=
  (r.stream r.pos, { r with pos := r.pos + 1 })

/-- `np_random.uniform(low, high)`: one draw rescaled to `[low, high)`. -/
def Rng.uniformDraw (r : Rng) (low high : ℚ) : ℚ × Rng :=
  let (u, r1) := r.uniform01
  (low + u * (high - low), r1)

/-- `np_random.uniform(low, high, size=(n,))`: `n` rescaled draws. -/
def Rng.uniformList (r : Rng) (low high : ℚ) : ℕ → List ℚ × Rng
  | 0 => ([], r)
  | n + 1 =>
    let (u, r1) := r.uniformDraw low high
    let (us, r2) := r1.uniformList low high n
    (u :: us, r2)

/-- `np_random.rand(n)`: `n` Uniform[0,1) draws. -/
def Rng.randList (r : Rng) : ℕ → List ℚ × Rng
  | 0 => ([], r)
  | n + 1 =>
    let (u, r1) := r.uniform01
    let (us, r2) := r1.randList n
    (u :: us, r2)

/-- `np_random.rand(n, k)`: an `n × k` matrix of Uniform[0,1) draws,
row by row. -/
def Rng.randMatrix (r : Rng) (k : ℕ) : ℕ → List (List ℚ) × Rng
  | 0 => ([], r)
  | n + 1 =>
    let (row, r1) := r.randList k
    let (rows, r2) := r1.randMatrix k n
    (row :: rows, r2)

/-- `np_random.binomial(1, p)`: a single Bernoulli(p) draw, `1` with
probability `p`, else `0`. -/
def Rng.binomial1 (r : Rng) (p : ℚ) : ℕ × Rng :=
  let (u, r1) := r.uniform01
  (if u < p then 1 else 0, r1)

/-- `np_random.binomial(1, p, size=(n,))`: `n` Bernoulli(p) draws. -/
def Rng.binomialList (r : Rng) (p : ℚ) : ℕ → List ℕ × Rng
  | 0 => ([], r)
  | n + 1 =>
    let (b, r1) := r.binomial1 p
    let (bs, r2) := r1.binomialList p n
    (b :: bs, r2)

/-- A concrete random source (constant stream 1/2), used to instantiate
theorems at concrete inputs. -/
def halfRng : Rng :=
  { stream := fun _ => 1 / 2
    pos := 0
    bounded := fun _ => by norm_num }

/-! ## Bandit environments (`maml_rl/envs/bandit.py`) -/

/-- A bandit Task dictionary: `mean` is `none` when the key `"mean"` is
absent from the dict. -/
structure BanditTask where
  mean : Option (List ℚ)
deriving DecidableEq, Repr

/-- Errors a bandit environment call can raise. -/
inductive BanditError where
  /-- `assert self.action_space.contains(action)` failed. -/
  | invalidAction : BanditError
  /-- `self._means[action]` with `action` out of range (numpy IndexError). -/
  | indexError : BanditError
  /-- `task["mean"]` on a dict without the key (Python KeyError);
  the spec's `IncompleteTask` condition. -/
  | keyError : BanditError
deriving DecidableEq, Repr

/-- `BernoulliBanditEnv` state: number of arms `k` (fixing the
`Discrete(k)` action space), the active task `_task`, the reward
parameters `_means`, and the environment-owned random source. -/
structure BernoulliBanditEnv where
  k : ℕ
  task : BanditTask
  means : List ℚ
  np_random : Rng

/-- `BernoulliBanditEnv.__init__(k, task)`: store `k`, the task, and
`task.get("mean", np.full((k,), 0.5))`.  The random source is supplied
by the external `seed()` call made by the constructor. -/
def BernoulliBanditEnv.init (k : ℕ) (task : BanditTask) (r : Rng) :
    BernoulliBanditEnv :=
  { k := k
    task := task
    means := task.mean.getD (List.replicate k (1 / 2))
    np_random := r }

/-- `BernoulliBanditEnv.seed(seed)`: replace the random source with the
one produced by the external `gym.utils.seeding.np_random(seed)`, a
deterministic function of the seed, modelled here as an explicit
argument `f`. -/
def BernoulliBanditEnv.applySeed (env : BernoulliBanditEnv)
    (f : Option ℤ → Rng) (s : Option ℤ) : BernoulliBanditEnv :=
  { env with np_random := f s }

/-- `BernoulliBanditEnv.sample_tasks(num_tasks)`: draw a
`num_tasks × k` matrix from the environment-owned source and wrap each
row as a task. -/
def BernoulliBanditEnv.sample_tasks (env : BernoulliBanditEnv)
    (num_tasks : ℕ) : List BanditTask × BernoulliBanditEnv :=
  let d := env.np_random.randMatrix env.k num_tasks
  (d.1.map (fun m => ⟨some m⟩), { env with np_random := d.2 })

/-- `BernoulliBanditEnv.reset_task(task)`: first `self._task = task`,
then `self._means = task["mean"]`.  When the key is missing the second
statement raises, after the first has already taken effect. -/
def BernoulliBanditEnv.reset_task (env : BernoulliBanditEnv)
    (task : BanditTask) : Except BanditError Unit × BernoulliBanditEnv :=
  let env1 := { env with task := task }
  match task.mean with
  | some m => (.ok (), { env1 with means := m })
  | none => (.error .keyError, env1)

/-- `BernoulliBanditEnv.reset()`: the constant zero observation. -/
def BernoulliBanditEnv.reset (_env : BernoulliBanditEnv) : List ℚ := [0]

/-- `BernoulliBanditEnv.step(action)`: assert the action is in
`Discrete(k)`, index the means, draw a Bernoulli reward, return the
zero observation, `done = True` and the task in the info dict. -/
def BernoulliBanditEnv.step (env : BernoulliBanditEnv) (action : ℤ) :
    Except BanditError (List ℚ × ℕ × Bool × BanditTask) × BernoulliBanditEnv :=
  if 0 ≤ action ∧ action < (env.k : ℤ) then
    match env.means.get? action.toNat with
    | some mean =>
      let (reward, r1) := env.np_random.binomial1 mean
      (.ok ([0], reward, true, env.task), { env with np_random := r1 })
    | none => (.error .indexError, env)
  else
    (.error .invalidAction, env)

/-- `GaussianBanditEnv` state (`maml_rl/envs/bandit.py`): same layout
as the Bernoulli variant plus the fixed `std`. -/
structure GaussianBanditEnv where
  k : ℕ
  std : ℚ
  task : BanditTask
  means : List ℚ
  np_random : Rng

/-- `GaussianBanditEnv.sample_tasks(num_tasks)`: identical draw rule to
the Bernoulli variant. -/
def GaussianBanditEnv.sample_tasks (env : GaussianBanditEnv)
    (num_tasks : ℕ) : List BanditTask × GaussianBanditEnv :=
  let d := env.np_random.randMatrix env.k num_tasks
  (d.1.map (fun m => ⟨some m⟩), { env with np_random := d.2 })

/-- `GaussianBanditEnv.reset_task(task)`: identical to the Bernoulli
variant — `self._task = task`, then `self._means = task["mean"]`. -/
def GaussianBanditEnv.reset_task (env : GaussianBanditEnv)
    (task : BanditTask) : Except BanditError Unit × GaussianBanditEnv :=
  let env1 := { env with task := task }
  match task.mean with
  | some m => (.ok (), { env1 with means := m })
  | none => (.error .keyError, env1)

/-! ## Half-cheetah locomotion environments
(`maml_rl/envs/mujoco/half_cheetah.py`)

The physics engine is external: `do_simulation` is an opaque transition
on simulator state, and `dt` an external timestep, both passed as
explicit arguments to `step`. -/

/-- The slice of external MuJoCo simulator state the environments read:
generalized positions `qpos`, generalized velocities `qvel`, and the
torso center-of-mass position. -/
structure MujocoState where
  qpos : List ℚ
  qvel : List ℚ
  torso_com : List ℚ
deriving DecidableEq, Repr

/-- `np.sum(np.square(action))`. -/
def sumSq (action : List ℚ) : ℚ := (action.map (fun a => a * a)).sum

/-- `HalfCheetahEnv._get_obs()`: `qpos[1:]` concatenated with `qvel`
and the torso center of mass. -/
def get_obs (s : MujocoState) : List ℚ :=
  s.qpos.tail ++ s.qvel ++ s.torso_com

/-- The task-specific reward term of the velocity variant:
`forward_reward = -1.0 * abs(forward_vel - self._goal_vel)`. -/
def velTaskReward (forward_vel goal_vel : ℚ) : ℚ :=
  -1 * |forward_vel - goal_vel|

/-- The task-specific reward term of the direction variant:
`forward_reward = self._goal_dir * forward_vel`. -/
def dirTaskReward (goal_dir : ℤ) (forward_vel : ℚ) : ℚ :=
  (goal_dir : ℚ) * forward_vel

/-- The control cost both locomotion `step` methods compute:
`ctrl_cost = 0.5 * 1e-1 * np.sum(np.square(action))` — the coefficient
is the literal `1e-1`, not the stored `_ctrl_cost_weight`. -/
def locoCtrlCost (action : List ℚ) : ℚ := (1 / 2) * (1 / 10) * sumSq action

/-- What a locomotion `step` returns: the 5-tuple
`(observation, reward, done, truncated, infos)` with the info dict
fields `reward_forward`, `reward_ctrl` and `task` spelled out. -/
structure LocoStepResult (τ : Type) where
  observation : List ℚ
  reward : ℚ
  done : Bool
  truncated : Bool
  reward_forward : ℚ
  reward_ctrl : ℚ
  info_task : τ
deriving DecidableEq, Repr

/-- A velocity-variant Task dictionary: `velocity` is `none` when the
key `"velocity"` is absent. -/
structure VelTask where
  velocity : Option ℚ
deriving DecidableEq, Repr

/-- A direction-variant Task dictionary. -/
structure DirTask where
  direction : Option ℤ
deriving DecidableEq, Repr

/-- `HalfCheetahVelEnv` state: the constructor-stored reward weights
(`_forward_reward_weight`, `_ctrl_cost_weight`, `_reset_noise_scale`),
the sampling bounds `low`/`high`, the active task `_task` and
`_goal_vel`, the random source, and the external simulator state. -/
structure HalfCheetahVelEnv where
  forward_reward_weight : ℚ
  ctrl_cost_weight : ℚ
  reset_noise_scale : ℚ
  low : ℚ
  high : ℚ
  task : VelTask
  goal_vel : ℚ
  np_random : Rng
  sim_state : MujocoState

/-- `HalfCheetahVelEnv.__init__(task, low, high, ...)`: store the
bounds, the task, `task.get("velocity", 0.0)`, and the constructor
weights (defaults `forward_reward_weight=1.0`, `ctrl_cost_weight=0.1`,
`reset_noise_scale=0.1`). -/
def HalfCheetahVelEnv.init (task : VelTask) (low high : ℚ)
    (forward_reward_weight ctrl_cost_weight reset_noise_scale : ℚ)
    (r : Rng) (s : MujocoState) : HalfCheetahVelEnv :=
  { forward_reward_weight := forward_reward_weight
    ctrl_cost_weight := ctrl_cost_weight
    reset_noise_scale := reset_noise_scale
    low := low
    high := high
    task := task
    goal_vel := task.velocity.getD 0
    np_random := r
    sim_state := s }

/-- `HalfCheetahVelEnv.step(action)`: read `qpos[0]`, run the external
simulation, read `qpos[0]` again, and compute the reward terms exactly
as the source does. -/
def HalfCheetahVelEnv.step (sim : MujocoState → List ℚ → MujocoState)
    (dt : ℚ) (env : HalfCheetahVelEnv) (action : List ℚ) :
    LocoStepResult VelTask × HalfCheetahVelEnv :=
  let xposbefore := env.sim_state.qpos.headD 0
  let s1 := sim env.sim_state action
  let xposafter := s1.qpos.headD 0
  let forward_vel := (xposafter - xposbefore) / dt
  let forward_reward := velTaskReward forward_vel env.goal_vel
  let ctrl_cost := locoCtrlCost action
  ({ observation := get_obs s1
     reward := forward_reward - ctrl_cost
     done := false
     truncated := false
     reward_forward := forward_reward
     reward_ctrl := -ctrl_cost
     info_task := env.task },
   { env with sim_state := s1 })

/-- `HalfCheetahVelEnv.sample_tasks(num_tasks)`: `num_tasks` draws from
`Uniform(low, high)` wrapped as velocity tasks. -/
def HalfCheetahVelEnv.sample_tasks (env : HalfCheetahVelEnv)
    (num_tasks : ℕ) : List VelTask × HalfCheetahVelEnv :=
  let d := env.np_random.uniformList env.low env.high num_tasks
  (d.1.map (fun v => ⟨some v⟩), { env with np_random := d.2 })

/-- `HalfCheetahVelEnv.reset_task(task)`: `self._task = task`, then
`self._goal_vel = task["velocity"]` which raises when the key is
missing, after `_task` was already replaced. -/
def HalfCheetahVelEnv.reset_task (env : HalfCheetahVelEnv)
    (task : VelTask) : Except BanditError Unit × HalfCheetahVelEnv :=
  let env1 := { env with task := task }
  match task.velocity with
  | some v => (.ok (), { env1 with goal_vel := v })
  | none => (.error .keyError, env1)

/-- `HalfCheetahDirEnv` state. -/
structure HalfCheetahDirEnv where
  forward_reward_weight : ℚ
  ctrl_cost_weight : ℚ
  reset_noise_scale : ℚ
  task : DirTask
  goal_dir : ℤ
  np_random : Rng
  sim_state : MujocoState

/-- `HalfCheetahDirEnv.__init__(task)`: store the task and
`task.get("direction", 1)`; the parent constructor runs with its
defaults. -/
def HalfCheetahDirEnv.init (task : DirTask) (r : Rng) (s : MujocoState) :
    HalfCheetahDirEnv :=
  { forward_reward_weight := 1
    ctrl_cost_weight := 1 / 10
    reset_noise_scale := 1 / 10
    task := task
    goal_dir := task.direction.getD 1
    np_random := r
    sim_state := s }

/-- `HalfCheetahDirEnv.step(action)`. -/
def HalfCheetahDirEnv.step (sim : MujocoState → List ℚ → MujocoState)
    (dt : ℚ) (env : HalfCheetahDirEnv) (action : List ℚ) :
    LocoStepResult DirTask × HalfCheetahDirEnv :=
  let xposbefore := env.sim_state.qpos.headD 0
  let s1 := sim env.sim_state action
  let xposafter := s1.qpos.headD 0
  let forward_vel := (xposafter - xposbefore) / dt
  let forward_reward := dirTaskReward env.goal_dir forward_vel
  let ctrl_cost := locoCtrlCost action
  ({ observation := get_obs s1
     reward := forward_reward - ctrl_cost
     done := false
     truncated := false
     reward_forward := forward_reward
     reward_ctrl := -ctrl_cost
     info_task := env.task },
   { env with sim_state := s1 })

/-- `HalfCheetahDirEnv.sample_tasks(num_tasks)`:
`2 * binomial(1, 0.5, num_tasks) - 1` wrapped as direction tasks. -/
def HalfCheetahDirEnv.sample_tasks (env : HalfCheetahDirEnv)
    (num_tasks : ℕ) : List DirTask × HalfCheetahDirEnv :=
  let d := env.np_random.binomialList (1 / 2) num_tasks
  (d.1.map (fun b => ⟨some (2 * (b : ℤ) - 1)⟩), { env with np_random := d.2 })

/-- `HalfCheetahDirEnv.reset_task(task)`. -/
def HalfCheetahDirEnv.reset_task (env : HalfCheetahDirEnv)
    (task : DirTask) : Except BanditError Unit × HalfCheetahDirEnv :=
  let env1 := { env with task := task }
  match task.direction with
  | some d => (.ok (), { env1 with goal_dir := d })
  | none => (.error .keyError, env1)

/-! ## Sampler (`maml_rl/samplers/sampler.py`) -/

/-- The observable state of an environment handle, as the Sampler
constructor manipulates it: whether the object exposes a `seed`
attribute, which seed (if any) was passed to `reset(seed=...)`, and
whether `close()` has been called. -/
structure EnvHandle where
  hasSeedAttr : Bool
  resetSeededWith : Option (Option ℤ)
  closed : Bool
deriving DecidableEq, Repr

/-- `env.reset(seed=seed)` as seen by the handle. -/
def EnvHandle.resetWithSeed (e : EnvHandle) (s : Option ℤ) : EnvHandle :=
  { e with resetSeededWith := some s }

/-- `env.close()`. -/
def EnvHandle.close (e : EnvHandle) : EnvHandle :=
  { e with closed := true }

/-- The error a base-Sampler operation raises:
`raise NotImplementedError()`. -/
inductive SamplerError where
  | notImplementedError : SamplerError
deriving DecidableEq, Repr

/-- `Sampler` fields after `__init__`. -/
structure Sampler where
  env_name : String
  batch_size : ℕ
  seed : Option ℤ
  env : EnvHandle
  closed : Bool

/-- `Sampler.__init__(env_name, env_kwargs, batch_size, policy, seed,
env)`: construct the env via `gym.make` when none is supplied (the
external `gym.make` is the argument `gymMake`), call
`reset(seed=seed)` if the env has a `seed` attribute, then `close()`
it before the constructor returns. -/
def Sampler.init (gymMake : String → EnvHandle) (env_name : String)
    (batch_size : ℕ) (seed : Option ℤ) (env0 : Option EnvHandle) : Sampler :=
  let env := match env0 with
    | none => gymMake env_name
    | some e => e
  let env := if env.hasSeedAttr then env.resetWithSeed seed else env
  let env := env.close
  { env_name := env_name
    batch_size := batch_size
    seed := seed
    env := env
    closed := false }

/-- `Sampler.sample_async(*args, **kwargs)`:
`raise NotImplementedError()` for every argument list. -/
def Sampler.sample_async {α β : Type} (_s : Sampler) (_args : α) :
    Except SamplerError β :=
  .error .notImplementedError

/-- `Sampler.sample(*args, **kwargs)`:
`return self.sample_async(*args, **kwargs)`. -/
def Sampler.sample {α β : Type} (s : Sampler) (args : α) :
    Except SamplerError β :=
  s.sample_async args

/-! ## Concrete objects used to instantiate theorems -/

/-- A trivial external simulator (identity transition), for concrete
instantiations. -/
def simNoop : MujocoState → List ℚ → MujocoState := fun s _ => s

/-- A concrete simulator state. -/
def mjState0 : MujocoState := ⟨[0, 1], [0], [0, 0, 0]⟩

/-- A concrete bandit environment with one arm and mean 1/2. -/
def banditK1 : BernoulliBanditEnv :=
  { k := 1, task := ⟨some [1 / 2]⟩, means := [1 / 2], np_random := halfRng }

/-- A concrete bandit environment with two arms. -/
def banditK2 : BernoulliBanditEnv :=
  { k := 2, task := ⟨some [1 / 2, 1 / 4]⟩, means := [1 / 2, 1 / 4],
    np_random := halfRng }

/-- A concrete velocity environment built with `ctrl_cost_weight = 1`. -/
def velEnvW1 : HalfCheetahVelEnv :=
  HalfCheetahVelEnv.init ⟨some 1⟩ 0 2 1 1 (1 / 10) halfRng mjState0

/-- A concrete velocity environment built with the default
`ctrl_cost_weight = 0.1`. -/
def velEnvDefault : HalfCheetahVelEnv :=
  HalfCheetahVelEnv.init ⟨some 1⟩ 0 2 1 (1 / 10) (1 / 10) halfRng mjState0

/-- A concrete direction environment (defaults). -/
def dirEnvDefault : HalfCheetahDirEnv :=
  HalfCheetahDirEnv.init ⟨some 1⟩ halfRng mjState0

/-! ## C5 and C10 concrete objects -/

/-- A second two-arm bandit with the same `k` but different task and
means, to show `sample_tasks` ignores the task state. -/
def banditK2b : BernoulliBanditEnv :=
  { k := 2, task := ⟨none⟩, means := [1 / 4, 3 / 4], np_random := halfRng }

/-- A concrete Gaussian bandit. -/
def gaussK2a : GaussianBanditEnv :=
  { k := 2, std := 1, task := ⟨some [1 / 2, 1 / 2]⟩,
    means := [1 / 2, 1 / 2], np_random := halfRng }

/-- A second Gaussian bandit with the same `k` and random source but a
different task and means. -/
def gaussK2b : GaussianBanditEnv :=
  { k := 2, std := 1, task := ⟨none⟩, means := [1 / 4, 1 / 4],
    np_random := halfRng }

/-- A velocity environment with the same bounds and random source as
`velEnvDefault` but a different goal velocity. -/
def velEnvAlt : HalfCheetahVelEnv :=
  HalfCheetahVelEnv.init ⟨some 2⟩ 0 2 1 (1 / 10) (1 / 10) halfRng mjState0

/-- A direction environment with the same random source as
`dirEnvDefault` but the opposite goal direction. -/
def dirEnvAlt : HalfCheetahDirEnv :=
  HalfCheetahDirEnv.init ⟨some (-1)⟩ halfRng mjState0

/-! ## Claims -/

/-- C4: for every locomotion step, with `forward_vel` the
finite-difference `(x_after - x_before) / dt`, the velocity variant's
task reward is `-|forward_vel - goal_velocity|`, the direction
variant's is `goal_direction * forward_vel`, and in both variants the
returned total reward is the task reward minus the control cost. -/
theorem C4_locomotion_rewards
    (sim : MujocoState → List ℚ → MujocoState) (dt : ℚ)
    (envV : HalfCheetahVelEnv) (envD : HalfCheetahDirEnv)
    (action : List ℚ) :
    ((HalfCheetahVelEnv.step sim dt envV action).1.reward_forward =
      -|((sim envV.sim_state action).qpos.headD 0 -
          envV.sim_state.qpos.headD 0) / dt - envV.goal_vel|) ∧
    ((HalfCheetahVelEnv.step sim dt envV action).1.reward =
      (HalfCheetahVelEnv.step sim dt envV action).1.reward_forward -
        locoCtrlCost action) ∧
    ((HalfCheetahDirEnv.step sim dt envD action).1.reward_forward =
      (envD.goal_dir : ℚ) *
        (((sim envD.sim_state action).qpos.headD 0 -
          envD.sim_state.qpos.headD 0) / dt)) ∧
    ((HalfCheetahDirEnv.step sim dt envD action).1.reward =
      (HalfCheetahDirEnv.step sim dt envD action).1.reward_forward -
        locoCtrlCost action) := by
  refine ⟨?_, rfl, rfl, rfl⟩
  simp [HalfCheetahVelEnv.step, velTaskReward]

/-- C7: every locomotion step (velocity and direction variant, any
simulator transition, any state, any action) returns `done = false`
and `truncated = false`. -/
theorem C7_locomotion_never_terminates
    (sim : MujocoState → List ℚ → MujocoState) (dt : ℚ)
    (envV : HalfCheetahVelEnv) (envD : HalfCheetahDirEnv)
    (action : List ℚ) :
    ((HalfCheetahVelEnv.step sim dt envV action).1.done = false) ∧
    ((HalfCheetahVelEnv.step sim dt envV action).1.truncated = false) ∧
    ((HalfCheetahDirEnv.step sim dt envD action).1.done = false) ∧
    ((HalfCheetahDirEnv.step sim dt envD action).1.truncated = false) :=
  ⟨rfl, rfl, rfl, rfl⟩

/-- C6: for a Bernoulli bandit whose active task has mean `[1, 0]`, and
for every state of its random source, `step 0` returns observation
`[0]`, reward `1`, `done = true`; `step 1` returns observation `[0]`,
reward `0`, `done = true`. -/
theorem C6_bandit_deterministic_arms (r : Rng) :
    (((BernoulliBanditEnv.mk 2 ⟨some [1, 0]⟩ [1, 0] r).step 0).1 =
      .ok ([0], 1, true, ⟨some [1, 0]⟩)) ∧
    (((BernoulliBanditEnv.mk 2 ⟨some [1, 0]⟩ [1, 0] r).step 1).1 =
      .ok ([0], 0, true, ⟨some [1, 0]⟩)) := by
  have h0 := (r.bounded r.pos).1
  have h1 := (r.bounded r.pos).2
  constructor
  · simp [BernoulliBanditEnv.step, Rng.binomial1, Rng.uniform01, h1]
  · simp [BernoulliBanditEnv.step, Rng.binomial1, Rng.uniform01, not_lt.mpr h0]

/-- C8: the velocity variant's task reward `v ↦ -|v - goal|` attains
its maximum value `0` exactly at `v = goal`, and is strictly smaller
the farther `v` is from the goal. -/
theorem C8_vel_reward_maximized_at_goal (g v v1 v2 : ℚ)
    (h : |v1 - g| < |v2 - g|) :
    velTaskReward g g = 0 ∧
    velTaskReward v g ≤ 0 ∧
    (velTaskReward v g = 0 ↔ v = g) ∧
    velTaskReward v2 g < velTaskReward v1 g := by
  refine ⟨?_, ?_, ?_, ?_⟩
  · simp [velTaskReward]
  · simp [velTaskReward]
  · simp [velTaskReward, sub_eq_zero]
  · simp only [velTaskReward, neg_one_mul]
    exact neg_lt_neg h

/-- C8 witness: the reward-shape theorem at goal 1, `v = 0`,
`v1 = 1`, `v2 = 5`. -/
theorem C8_vel_reward_maximized_at_goal_witness :
    velTaskReward 1 1 = 0 ∧
    velTaskReward 0 1 ≤ 0 ∧
    (velTaskReward 0 1 = 0 ↔ (0 : ℚ) = 1) ∧
    velTaskReward 5 1 < velTaskReward 1 1 :=
  C8_vel_reward_maximized_at_goal 1 0 1 5 (by norm_num)

/-- C9: on the unmodified base Sampler, `sample_async` fails with
`NotImplementedError` for every argument list, and `sample` is the
bare delegation to `sample_async`, hence fails identically. -/
theorem C9_base_sampler_abstract (s : Sampler) (α β : Type) (args : α) :
    ((Sampler.sample_async s args : Except SamplerError β) =
      .error .notImplementedError) ∧
    ((Sampler.sample s args : Except SamplerError β) =
      Sampler.sample_async s args) ∧
    ((Sampler.sample s args : Except SamplerError β) =
      .error .notImplementedError) :=
  ⟨rfl, rfl, rfl⟩

/-- C1 counterexample: an environment constructed with
`ctrl_cost_weight = 1` still computes a control cost of
`0.5 * 0.1 * sum(a^2)`: at action `[1]` the info field `reward_ctrl`
is `-1/20`, not the `-(0.5 * ctrl_cost_weight * sum(a^2)) = -1/2` the
claim requires. -/
theorem C1_ctrl_cost_counterexample :
    velEnvW1.ctrl_cost_weight = 1 ∧
    (HalfCheetahVelEnv.step simNoop 1 velEnvW1 [1]).1.reward_ctrl = -(1 / 20) ∧
    (HalfCheetahVelEnv.step simNoop 1 velEnvW1 [1]).1.reward_ctrl ≠
      -((1 / 2) * velEnvW1.ctrl_cost_weight * sumSq [1]) := by
  refine ⟨rfl, ?_, ?_⟩ <;>
    norm_num [velEnvW1, HalfCheetahVelEnv.init, HalfCheetahVelEnv.step,
      locoCtrlCost, sumSq]

/-- C1 amended: in both locomotion variants, for every environment —
whatever `ctrl_cost_weight` its constructor was given — the control
cost subtracted from the reward is `0.5 * 0.1 * sum(a^2)`, with the
coefficient `0.1` hard-coded in `step`; it coincides with the claimed
`0.5 * ctrl_cost_weight * sum(a^2)` exactly when that weight is the
default `0.1`. -/
theorem C1_ctrl_cost_hardcoded
    (sim : MujocoState → List ℚ → MujocoState) (dt : ℚ)
    (envV : HalfCheetahVelEnv) (envD : HalfCheetahDirEnv)
    (action : List ℚ) :
    ((HalfCheetahVelEnv.step sim dt envV action).1.reward_ctrl =
      -((1 / 2) * (1 / 10) * sumSq action)) ∧
    ((HalfCheetahDirEnv.step sim dt envD action).1.reward_ctrl =
      -((1 / 2) * (1 / 10) * sumSq action)) ∧
    (envV.ctrl_cost_weight = 1 / 10 →
      (HalfCheetahVelEnv.step sim dt envV action).1.reward_ctrl =
        -((1 / 2) * envV.ctrl_cost_weight * sumSq action)) ∧
    (envD.ctrl_cost_weight = 1 / 10 →
      (HalfCheetahDirEnv.step sim dt envD action).1.reward_ctrl =
        -((1 / 2) * envD.ctrl_cost_weight * sumSq action)) := by
  refine ⟨rfl, rfl, fun hV => ?_, fun hD => ?_⟩
  · simp [HalfCheetahVelEnv.step, locoCtrlCost, hV]
  · simp [HalfCheetahDirEnv.step, locoCtrlCost, hD]

/-- C1 witness: the amended control-cost theorem at action `[1]`, on a
velocity environment built with the non-default weight `1` (showing
the hard-coded cost there) and on default-weight environments for the
coincidence conjuncts. -/
theorem C1_ctrl_cost_hardcoded_witness :
    ((HalfCheetahVelEnv.step simNoop 1 velEnvW1 [1]).1.reward_ctrl =
      -((1 / 2) * (1 / 10) * sumSq [1])) ∧
    ((HalfCheetahDirEnv.step simNoop 1 dirEnvDefault [1]).1.reward_ctrl =
      -((1 / 2) * (1 / 10) * sumSq [1])) ∧
    ((HalfCheetahVelEnv.step simNoop 1 velEnvDefault [1]).1.reward_ctrl =
      -((1 / 2) * velEnvDefault.ctrl_cost_weight * sumSq [1])) ∧
    ((HalfCheetahDirEnv.step simNoop 1 dirEnvDefault [1]).1.reward_ctrl =
      -((1 / 2) * dirEnvDefault.ctrl_cost_weight * sumSq [1])) :=
  ⟨(C1_ctrl_cost_hardcoded simNoop 1 velEnvW1 dirEnvDefault [1]).1,
   (C1_ctrl_cost_hardcoded simNoop 1 velEnvDefault dirEnvDefault [1]).2.1,
   (C1_ctrl_cost_hardcoded simNoop 1 velEnvDefault dirEnvDefault
      [1]).2.2.1 rfl,
   (C1_ctrl_cost_hardcoded simNoop 1 velEnvDefault dirEnvDefault
      [1]).2.2.2 rfl⟩

/-- C2 counterexample: a Sampler constructed with seed `1` around a
pre-built environment handle that exposes no `seed` attribute closes
the environment but never applies the seed — refuting "the seed is
applied to the environment immediately during construction" for every
construction. -/
theorem C2_seed_not_applied_counterexample :
    (Sampler.init (fun _ => ⟨true, none, false⟩) "Bandit-K5-v0" 10 (some 1)
        (some ⟨false, none, false⟩)).env.closed = true ∧
    (Sampler.init (fun _ => ⟨true, none, false⟩) "Bandit-K5-v0" 10 (some 1)
        (some ⟨false, none, false⟩)).env.resetSeededWith = none := by
  exact ⟨rfl, rfl⟩

/-- C2 amended: the Sampler constructor closes the environment before
returning (so it never holds a live handle), and it applies the seed —
via `reset(seed=seed)` — if and only if the environment exposes a
`seed` attribute; an environment without one is left unseeded. -/
theorem C2_sampler_closes_env_after_conditional_seed
    (gymMake : String → EnvHandle) (env_name : String) (batch_size : ℕ)
    (seed : Option ℤ) (env0 : Option EnvHandle)
    (e : EnvHandle) (he : e = (env0.getD (gymMake env_name))) :
    ((Sampler.init gymMake env_name batch_size seed env0).env.closed = true) ∧
    (e.hasSeedAttr = true →
      (Sampler.init gymMake env_name batch_size seed env0).env.resetSeededWith =
        some seed) ∧
    (e.hasSeedAttr = false →
      (Sampler.init gymMake env_name batch_size seed env0).env.resetSeededWith =
        e.resetSeededWith) := by
  subst he
  cases env0 with
  | none =>
    by_cases h : (gymMake env_name).hasSeedAttr <;>
      simp [Sampler.init, EnvHandle.close, EnvHandle.resetWithSeed, h]
  | some e0 =>
    by_cases h : e0.hasSeedAttr <;>
      simp [Sampler.init, EnvHandle.close, EnvHandle.resetWithSeed, h]

/-- C2 witness: the amended constructor theorem at a concrete seeded
construction with no pre-built environment. -/
theorem C2_sampler_closes_env_after_conditional_seed_witness :
    ((Sampler.init (fun _ => ⟨true, none, false⟩) "Bandit-K5-v0" 10 (some 1)
        none).env.closed = true) ∧
    ((⟨true, none, false⟩ : EnvHandle).hasSeedAttr = true →
      (Sampler.init (fun _ => ⟨true, none, false⟩) "Bandit-K5-v0" 10 (some 1)
          none).env.resetSeededWith = some (some 1)) ∧
    ((⟨true, none, false⟩ : EnvHandle).hasSeedAttr = false →
      (Sampler.init (fun _ => ⟨true, none, false⟩) "Bandit-K5-v0" 10 (some 1)
          none).env.resetSeededWith =
        (⟨true, none, false⟩ : EnvHandle).resetSeededWith) :=
  C2_sampler_closes_env_after_conditional_seed
    (fun _ => ⟨true, none, false⟩) "Bandit-K5-v0" 10 (some 1) none
    ⟨true, none, false⟩ rfl

/-- C3 counterexample: calling `reset_task` on a one-arm bandit with a
task that lacks the `mean` field raises, but leaves the environment in
a partially merged state: `_task` is already the new (incomplete) task
while `_means` still holds the previous task's parameters. -/
theorem C3_partial_merge_counterexample :
    ((banditK1.reset_task ⟨none⟩).1 = .error .keyError) ∧
    ((banditK1.reset_task ⟨none⟩).2.task = ⟨none⟩) ∧
    ((banditK1.reset_task ⟨none⟩).2.means = [1 / 2]) :=
  ⟨rfl, rfl, rfl⟩

/-- C3 amended: for every environment variant (Bernoulli bandit,
Gaussian bandit, locomotion-velocity, locomotion-direction), on a
complete task `reset_task` replaces the active task wholesale and the
reward parameters come entirely from the new task; on a task missing
the required field it raises (KeyError — the `IncompleteTask`
condition) rather than silently defaulting, but it leaves `_task`
replaced by the new task while the reward parameters (`_means` /
`_goal_vel` / `_goal_dir`) still come from the old one — a partially
merged state. -/
theorem C3_reset_task_replacement
    (env : BernoulliBanditEnv) (envG : GaussianBanditEnv)
    (envV : HalfCheetahVelEnv) (envD : HalfCheetahDirEnv)
    (t tg : BanditTask) (tv : VelTask) (td : DirTask) :
    (∀ m, t.mean = some m →
      (env.reset_task t).1 = .ok () ∧
      (env.reset_task t).2.task = t ∧
      (env.reset_task t).2.means = m) ∧
    (t.mean = none →
      (env.reset_task t).1 = .error .keyError ∧
      (env.reset_task t).2.task = t ∧
      (env.reset_task t).2.means = env.means) ∧
    (∀ m, tg.mean = some m →
      (envG.reset_task tg).1 = .ok () ∧
      (envG.reset_task tg).2.task = tg ∧
      (envG.reset_task tg).2.means = m) ∧
    (tg.mean = none →
      (envG.reset_task tg).1 = .error .keyError ∧
      (envG.reset_task tg).2.task = tg ∧
      (envG.reset_task tg).2.means = envG.means) ∧
    (∀ v, tv.velocity = some v →
      (envV.reset_task tv).1 = .ok () ∧
      (envV.reset_task tv).2.task = tv ∧
      (envV.reset_task tv).2.goal_vel = v) ∧
    (tv.velocity = none →
      (envV.reset_task tv).1 = .error .keyError ∧
      (envV.reset_task tv).2.task = tv ∧
      (envV.reset_task tv).2.goal_vel = envV.goal_vel) ∧
    (∀ d, td.direction = some d →
      (envD.reset_task td).1 = .ok () ∧
      (envD.reset_task td).2.task = td ∧
      (envD.reset_task td).2.goal_dir = d) ∧
    (td.direction = none →
      (envD.reset_task td).1 = .error .keyError ∧
      (envD.reset_task td).2.task = td ∧
      (envD.reset_task td).2.goal_dir = envD.goal_dir) := by
  refine ⟨?_, ?_, ?_, ?_, ?_, ?_, ?_, ?_⟩
  · intro m hm
    simp [BernoulliBanditEnv.reset_task, hm]
  · intro hm
    simp [BernoulliBanditEnv.reset_task, hm]
  · intro m hm
    simp [GaussianBanditEnv.reset_task, hm]
  · intro hm
    simp [GaussianBanditEnv.reset_task, hm]
  · intro v hv
    simp [HalfCheetahVelEnv.reset_task, hv]
  · intro hv
    simp [HalfCheetahVelEnv.reset_task, hv]
  · intro d hd
    simp [HalfCheetahDirEnv.reset_task, hd]
  · intro hd
    simp [HalfCheetahDirEnv.reset_task, hd]

/-- C3 witness: the replacement theorem at a concrete environment of
each of the four variants, exercising both the complete-task branch
and the missing-field branch. -/
theorem C3_reset_task_replacement_witness :
    ((banditK2.reset_task ⟨some [1]⟩).1 = .ok () ∧
      (banditK2.reset_task ⟨some [1]⟩).2.task = ⟨some [1]⟩ ∧
      (banditK2.reset_task ⟨some [1]⟩).2.means = [1]) ∧
    ((banditK2.reset_task ⟨none⟩).1 = .error .keyError ∧
      (banditK2.reset_task ⟨none⟩).2.task = ⟨none⟩ ∧
      (banditK2.reset_task ⟨none⟩).2.means = banditK2.means) ∧
    ((gaussK2a.reset_task ⟨some [1]⟩).1 = .ok () ∧
      (gaussK2a.reset_task ⟨some [1]⟩).2.task = ⟨some [1]⟩ ∧
      (gaussK2a.reset_task ⟨some [1]⟩).2.means = [1]) ∧
    ((gaussK2a.reset_task ⟨none⟩).1 = .error .keyError ∧
      (gaussK2a.reset_task ⟨none⟩).2.task = ⟨none⟩ ∧
      (gaussK2a.reset_task ⟨none⟩).2.means = gaussK2a.means) ∧
    ((velEnvDefault.reset_task ⟨some 2⟩).1 = .ok () ∧
      (velEnvDefault.reset_task ⟨some 2⟩).2.task = ⟨some 2⟩ ∧
      (velEnvDefault.reset_task ⟨some 2⟩).2.goal_vel = 2) ∧
    ((velEnvDefault.reset_task ⟨none⟩).1 = .error .keyError ∧
      (velEnvDefault.reset_task ⟨none⟩).2.task = ⟨none⟩ ∧
      (velEnvDefault.reset_task ⟨none⟩).2.goal_vel = velEnvDefault.goal_vel) ∧
    ((dirEnvDefault.reset_task ⟨some (-1)⟩).1 = .ok () ∧
      (dirEnvDefault.reset_task ⟨some (-1)⟩).2.task = ⟨some (-1)⟩ ∧
      (dirEnvDefault.reset_task ⟨some (-1)⟩).2.goal_dir = -1) ∧
    ((dirEnvDefault.reset_task ⟨none⟩).1 = .error .keyError ∧
      (dirEnvDefault.reset_task ⟨none⟩).2.task = ⟨none⟩ ∧
      (dirEnvDefault.reset_task ⟨none⟩).2.goal_dir = dirEnvDefault.goal_dir) :=
  ⟨(C3_reset_task_replacement banditK2 gaussK2a velEnvDefault dirEnvDefault
      ⟨some [1]⟩ ⟨none⟩ ⟨none⟩ ⟨none⟩).1 [1] rfl,
   (C3_reset_task_replacement banditK2 gaussK2a velEnvDefault dirEnvDefault
      ⟨none⟩ ⟨none⟩ ⟨none⟩ ⟨none⟩).2.1 rfl,
   (C3_reset_task_replacement banditK2 gaussK2a velEnvDefault dirEnvDefault
      ⟨none⟩ ⟨some [1]⟩ ⟨none⟩ ⟨none⟩).2.2.1 [1] rfl,
   (C3_reset_task_replacement banditK2 gaussK2a velEnvDefault dirEnvDefault
      ⟨none⟩ ⟨none⟩ ⟨none⟩ ⟨none⟩).2.2.2.1 rfl,
   (C3_reset_task_replacement banditK2 gaussK2a velEnvDefault dirEnvDefault
      ⟨none⟩ ⟨none⟩ ⟨some 2⟩ ⟨none⟩).2.2.2.2.1 2 rfl,
   (C3_reset_task_replacement banditK2 gaussK2a velEnvDefault dirEnvDefault
      ⟨none⟩ ⟨none⟩ ⟨none⟩ ⟨none⟩).2.2.2.2.2.1 rfl,
   (C3_reset_task_replacement banditK2 gaussK2a velEnvDefault dirEnvDefault
      ⟨none⟩ ⟨none⟩ ⟨none⟩ ⟨some (-1)⟩).2.2.2.2.2.2.1 (-1) rfl,
   (C3_reset_task_replacement banditK2 gaussK2a velEnvDefault dirEnvDefault
      ⟨none⟩ ⟨none⟩ ⟨none⟩ ⟨none⟩).2.2.2.2.2.2.2 rfl⟩

/-- C5: `sample_tasks` is deterministic given the environment-owned
random source and the variant's fixed draw parameters, and reads
nothing else: for every variant, two instances that agree on the
random source (e.g. after seeding both through the same deterministic
seeding function with the same seed) and on the draw parameters
(`k`, resp. `low`/`high`) produce identical `sample_tasks n` output,
whatever their task state. -/
theorem C5_sample_tasks_deterministic
    (f : Option ℤ → Rng) (s : Option ℤ) (n : ℕ)
    (e1 e2 : BernoulliBanditEnv) (hk : e1.k = e2.k)
    (g1 g2 : GaussianBanditEnv) (hgk : g1.k = g2.k)
    (hgr : g1.np_random = g2.np_random)
    (v1 v2 : HalfCheetahVelEnv) (hl : v1.low = v2.low)
    (hh : v1.high = v2.high) (hvr : v1.np_random = v2.np_random)
    (d1 d2 : HalfCheetahDirEnv) (hdr : d1.np_random = d2.np_random) :
    (((e1.applySeed f s).sample_tasks n).1 =
      ((e2.applySeed f s).sample_tasks n).1) ∧
    ((g1.sample_tasks n).1 = (g2.sample_tasks n).1) ∧
    ((v1.sample_tasks n).1 = (v2.sample_tasks n).1) ∧
    ((d1.sample_tasks n).1 = (d2.sample_tasks n).1) := by
  refine ⟨?_, ?_, ?_, ?_⟩
  · simp only [BernoulliBanditEnv.sample_tasks, BernoulliBanditEnv.applySeed,
      hk]
  · simp only [GaussianBanditEnv.sample_tasks, hgk, hgr]
  · simp only [HalfCheetahVelEnv.sample_tasks, hl, hh, hvr]
  · simp only [HalfCheetahDirEnv.sample_tasks, hdr]

/-- C5 witness: the determinism theorem at concrete pairs of
environments that share the random source and draw parameters but
differ in task state, with seed `0` and three task draws. -/
theorem C5_sample_tasks_deterministic_witness :
    (((banditK2.applySeed (fun _z => halfRng) (some 0)).sample_tasks 3).1 =
      ((banditK2b.applySeed (fun _z => halfRng) (some 0)).sample_tasks 3).1) ∧
    ((gaussK2a.sample_tasks 3).1 = (gaussK2b.sample_tasks 3).1) ∧
    ((velEnvDefault.sample_tasks 3).1 = (velEnvAlt.sample_tasks 3).1) ∧
    ((dirEnvDefault.sample_tasks 3).1 = (dirEnvAlt.sample_tasks 3).1) :=
  C5_sample_tasks_deterministic (fun _z => halfRng) (some 0) 3
    banditK2 banditK2b rfl gaussK2a gaussK2b rfl rfl
    velEnvDefault velEnvAlt rfl rfl rfl dirEnvDefault dirEnvAlt rfl

/-- C10: on a `k`-arm Bernoulli bandit, `reset_task` accepts without
validation a task whose `mean` has fewer than `k` entries and the
action space stays `Discrete(k)`; a subsequent `step a` with
`mean.length ≤ a < k` passes the action-space assertion but fails with
an out-of-range index error, distinct from the `InvalidAction`
condition. -/
theorem C10_short_mean_reaches_index_error
    (env : BernoulliBanditEnv) (mu : List ℚ) (a : ℤ)
    (hlen : (mu.length : ℤ) ≤ a) (ha : a < (env.k : ℤ)) :
    ((env.reset_task ⟨some mu⟩).1 = .ok ()) ∧
    ((env.reset_task ⟨some mu⟩).2.k = env.k) ∧
    ((env.reset_task ⟨some mu⟩).2.means = mu) ∧
    (((env.reset_task ⟨some mu⟩).2.step a).1 = .error .indexError) ∧
    (((env.reset_task ⟨some mu⟩).2.step a).1 ≠ .error .invalidAction) := by
  have ha0 : 0 ≤ a := le_trans (Int.ofNat_nonneg mu.length) hlen
  have hget : mu[a.toNat]? = none := List.getElem?_eq_none (by omega)
  have hstep : (((env.reset_task ⟨some mu⟩).2).step a).1 = .error .indexError := by
    simp [BernoulliBanditEnv.reset_task, BernoulliBanditEnv.step, ha0, ha, hget]
  refine ⟨rfl, rfl, rfl, hstep, ?_⟩
  rw [hstep]
  simp

/-- C10 witness: the short-mean theorem on a two-arm bandit reset to a
one-entry mean and stepped with action `1`. -/
theorem C10_short_mean_reaches_index_error_witness :
    ((banditK2.reset_task ⟨some [1 / 2]⟩).1 = .ok ()) ∧
    ((banditK2.reset_task ⟨some [1 / 2]⟩).2.k = banditK2.k) ∧
    ((banditK2.reset_task ⟨some [1 / 2]⟩).2.means = [1 / 2]) ∧
    (((banditK2.reset_task ⟨some [1 / 2]⟩).2.step 1).1 = .error .indexError) ∧
    (((banditK2.reset_task ⟨some [1 / 2]⟩).2.step 1).1 ≠
      .error .invalidAction) :=
  C10_short_mean_reaches_index_error banditK2 [1 / 2] 1 (by norm_num)
    (by norm_num [banditK2])
